import Mathlib

/-!
Verification of the Carousel scroll-navigation logic
(`packages/ibm-products/src/components/Carousel/Carousel.js`).

The component's scroll math is embedded shallowly:

* A `CarouselState` holds the layout facts the handlers read from the DOM:
  the scroll container's left coordinate on the page (`containerLeft`,
  from `getBoundingClientRect().left`), its client width (`clientWidth`),
  the rendered widths of the child items in order (`itemWidths`), and the
  current horizontal scroll position (`scrollLeft`).
* Items are laid out contiguously left-to-right from the container's
  content origin, so item `i`'s page-coordinate left edge is
  `containerLeft - scrollLeft + (widths of items before i).sum`, and the
  DOM `scrollWidth` is `max clientWidth (sum of item widths)`.
* Assigning to `Element.scrollLeft` clamps the value into
  `[0, scrollWidth - clientWidth]`; `jsSetScrollLeft` models that clamp.
* JavaScript numerics are idealized over `ℚ`: `parseInt(x, 10)` truncates
  toward zero (`jsParseInt`), `x.toFixed(2)` followed by `parseFloat`
  rounds to the nearest hundredth with halves rounded up (`roundTo2`),
  and division follows IEEE conventions for zero denominators via the
  `JSNum` sum type (`jsDiv`): `0/0` is NaN and `x/0` is a signed
  infinity.  `x || 0` maps the falsy values NaN and 0 to 0 (`jsOrZero`).

Each handler becomes a pure function: `handleNext`, `handlePrev` and
`handleReset` map a state to the state after the handler runs, and
`handleScroll` returns the pair of arguments passed to the two callbacks
`onChangeIsScrollable` and `onScroll`.

Alongside the handlers, `itemFullyVisible`, `visibleWidthSum`,
`firstVisibleLeft`, `advanceDelta`, `retreatDelta` and
`isScrollableState` restate, in the specification's own vocabulary
(fully visible items, their summed width, the first visible item's left
offset), the quantities the specification says the handlers use; the
refinement theorems below compare the handlers against them.
-/

/-- JavaScript number as far as handleScroll's arithmetic needs:
a finite rational, an infinity, or NaN. -/
inductive JSNum where
  | fin (q : ℚ)
  | posInf
  | negInf
  | nan
deriving DecidableEq, Repr

/-- JavaScript division `a / b` (with `a`, `b` finite): `0/0` is NaN,
`x/0` for nonzero `x` is a signed infinity, otherwise exact. -/
def jsDiv (a b : ℚ) : JSNum :=
  if b = 0 then
    if a = 0 then JSNum.nan
    else if 0 < a then JSNum.posInf else JSNum.negInf
  else JSNum.fin (a / b)

/-- Rounding a rational to two decimal places, to the nearest hundredth
with halves rounded up: the idealized meaning of
`parseFloat(x.toFixed(2))` for a finite `x`. -/
def roundTo2 (q : ℚ) : ℚ := (⌊q * 100 + 1 / 2⌋ : ℚ) / 100

/-- The composite `parseFloat((...).toFixed(2))`: rounds a finite value
to two decimals; `toFixed` prints infinities and NaN as words that
`parseFloat` maps back to themselves. -/
def toFixed2 : JSNum → JSNum
  | JSNum.fin q => JSNum.fin (roundTo2 q)
  | x => x

/-- JavaScript `x || 0`: NaN and 0 are falsy and become 0; every other
number, infinities included, is truthy and passes through. -/
def jsOrZero : JSNum → JSNum
  | JSNum.fin q => JSNum.fin q
  | JSNum.nan => JSNum.fin 0
  | x => x

/-- JavaScript `parseInt(x, 10)` on a finite number: the number is
printed in decimal and the leading digits are parsed, which truncates
toward zero (exponents large enough for scientific notation are outside
the layout sizes modelled here). -/
def jsParseInt (q : ℚ) : ℤ := if 0 ≤ q then ⌊q⌋ else ⌈q⌉

/-- An axis-aligned box as `getBoundingClientRect` reports it, reduced to
the horizontal data the Carousel reads. -/
structure Rect where
  left : ℚ
  width : ℚ
deriving DecidableEq, Repr

/-- Right edge of a rect, as in `DOMRect.right`. -/
def Rect.right (r : Rect) : ℚ := r.left + r.width

/-- State of the Carousel's scroll container and children, as read from
the DOM by the handlers. -/
structure CarouselState where
  containerLeft : ℚ
  clientWidth : ℚ
  itemWidths : List ℚ
  scrollLeft : ℚ
deriving DecidableEq, Repr

namespace CarouselState

/-- Total width of the laid-out children. -/
def contentWidth (s : CarouselState) : ℚ := s.itemWidths.sum

/-- DOM `scrollWidth` of the scroll container: the content width, but
never less than the client width. -/
def scrollWidth (s : CarouselState) : ℚ :=
  if s.contentWidth ≤ s.clientWidth then s.clientWidth else s.contentWidth

/-- The maximum value `scrollLeft` can take:
`scrollWidth - clientWidth` (nonnegative by construction). -/
def scrollLeftMax (s : CarouselState) : ℚ := s.scrollWidth - s.clientWidth

/-- Writing `v` to `Element.scrollLeft` stores `v` clamped into
`[0, scrollLeftMax]`. -/
def jsSetScrollLeft (s : CarouselState) (v : ℚ) : CarouselState :=
  { s with scrollLeft :=
      let v0 := if 0 ≤ v then v else 0
      if v0 ≤ s.scrollLeftMax then v0 else s.scrollLeftMax }

/-- The scroll container's own bounding rect: its page-coordinate left
edge and its width. -/
def containerRect (s : CarouselState) : Rect :=
  { left := s.containerLeft, width := s.clientWidth }

/-- Page-coordinate left edge of item `i`: the container's content origin
is at `containerLeft - scrollLeft`, and items sit end to end. -/
def itemLeft (s : CarouselState) (i : ℕ) : ℚ :=
  s.containerLeft - s.scrollLeft + (s.itemWidths.take i).sum

/-- Bounding rect of item `i` in page coordinates. -/
def itemRect (s : CarouselState) (i : ℕ) : Rect :=
  { left := s.itemLeft i, width := s.itemWidths.getD i 0 }

/-- The DOM facts `scrollLeft` always satisfies between events:
it lies in `[0, scrollLeftMax]`. -/
def InRange (s : CarouselState) : Prop :=
  0 ≤ s.scrollLeft ∧ s.scrollLeft ≤ s.scrollLeftMax

instance (s : CarouselState) : Decidable s.InRange := by
  unfold InRange; infer_instance

end CarouselState

open CarouselState

/-- Result record of `getWidths`: the viewport width, the summed item
widths, the scroll position truncated by `parseInt(·, 10)`, and the
scrollable width. -/
structure Widths where
  clientWidth : ℚ
  itemWidths : ℚ
  scrollLeft : ℤ
  scrollWidth : ℚ
deriving DecidableEq, Repr

/-- Source `getWidths`: reads `clientWidth`, the reduce-summed child
widths, `parseInt(scrollLeft, 10)` and `scrollWidth` from the DOM. -/
def getWidths (s : CarouselState) : Widths :=
  { clientWidth := s.clientWidth
    itemWidths := s.contentWidth
    scrollLeft := jsParseInt s.scrollLeft
    scrollWidth := s.scrollWidth }

/-- Source `handleScroll`: computes
`scrollPercent = parseFloat((scrollLeft / scrollLeftMax).toFixed(2)) || 0`
and returns the pair of callback arguments, `scrollWidth > clientWidth`
for `onChangeIsScrollable` and the percent for `onScroll`. -/
def handleScroll (s : CarouselState) : Bool × JSNum :=
  let w := getWidths s
  let scrollLeftMax := w.scrollWidth - w.clientWidth
  let scrollPercent := jsOrZero (toFixed2 (jsDiv (w.scrollLeft : ℚ) scrollLeftMax))
  (decide (w.clientWidth < w.scrollWidth), scrollPercent)

/-- Source `getElementInView`: the element's box lies entirely within the
container's box horizontally. -/
def getElementInView (containerRect elementRect : Rect) : Bool :=
  decide (containerRect.left ≤ elementRect.left) &&
    decide (elementRect.right ≤ containerRect.right)

/-- Source `getElementsInView`: the bounding rects of the children that
are fully visible in the scroll container, in document order. -/
def getElementsInView (s : CarouselState) : List Rect :=
  ((List.range s.itemWidths.length).map s.itemRect).filter
    (fun r => getElementInView s.containerRect r)

/-- Source `handleNext`: adds to `scrollLeft` the summed width of the
fully visible items, or the container width when that sum is not
positive; the DOM clamps the stored value. -/
def handleNext (s : CarouselState) : CarouselState :=
  let containerRect := s.containerRect
  let elRectsInView := getElementsInView s
  let visibleWidth := (elRectsInView.map Rect.width).sum
  let scrollValue := if 0 < visibleWidth then visibleWidth else containerRect.width
  s.jsSetScrollLeft (s.scrollLeft + scrollValue)

/-- Source `handlePrev`: subtracts from `scrollLeft` the summed visible
width minus the first visible rect's left, or the container's width plus
its left when the visible width is not positive; the DOM clamps the
stored value. -/
def handlePrev (s : CarouselState) : CarouselState :=
  let containerRect := s.containerRect
  let elRectsInView := getElementsInView s
  let visibleWidth := (elRectsInView.map Rect.width).sum
  let scrollValue :=
    if 0 < visibleWidth then visibleWidth - (elRectsInView.headD ⟨0, 0⟩).left
    else containerRect.width + containerRect.left
  s.jsSetScrollLeft (s.scrollLeft - scrollValue)

/-- Source `handleReset`: writes 0 to `scrollLeft`. -/
def handleReset (s : CarouselState) : CarouselState :=
  s.jsSetScrollLeft 0

/-- Arguments passed to `onChangeIsScrollable` over a sequence of
scrollend events, one `handleScroll` invocation per event. -/
def scrollendEmissions (states : List CarouselState) : List Bool :=
  states.map (fun s => (handleScroll s).1)

/-- Following the specification's glossary: item `i` is a visible item
when its bounding box lies entirely within the viewport's bounding
box. -/
def itemFullyVisible (s : CarouselState) (i : ℕ) : Prop :=
  s.containerLeft ≤ s.itemLeft i ∧
    s.itemLeft i + s.itemWidths.getD i 0 ≤ s.containerLeft + s.clientWidth

instance (s : CarouselState) (i : ℕ) : Decidable (itemFullyVisible s i) := by
  unfold itemFullyVisible; infer_instance

/-- Indices of the fully visible items, in document order. -/
def visibleIndices (s : CarouselState) : List ℕ :=
  (List.range s.itemWidths.length).filter fun i => decide (itemFullyVisible s i)

/-- Summed width of the fully visible items, as the specification
describes the scroll amount of `advance()`. -/
def visibleWidthSum (s : CarouselState) : ℚ :=
  ((visibleIndices s).map fun i => s.itemWidths.getD i 0).sum

/-- Page-coordinate left offset of the first fully visible item
(0 when there is none). -/
def firstVisibleLeft (s : CarouselState) : ℚ :=
  match visibleIndices s with
  | [] => 0
  | i :: _ => s.itemLeft i

/-- The distance the specification says `advance()` moves the viewport:
the summed width of the fully visible items when positive, the viewport
width otherwise. -/
def advanceDelta (s : CarouselState) : ℚ :=
  if 0 < visibleWidthSum s then visibleWidthSum s else s.clientWidth

/-- The distance the specification says `retreat()` moves the viewport:
the summed visible width minus the first visible item's left offset, or
the viewport width plus the container's own left offset as fallback. -/
def retreatDelta (s : CarouselState) : ℚ :=
  if 0 < visibleWidthSum s then visibleWidthSum s - firstVisibleLeft s
  else s.clientWidth + s.containerLeft

/-- Whether the carousel has enough content to scroll, as the
specification phrases it: `scrollableWidth > viewportWidth`. -/
def isScrollableState (s : CarouselState) : Bool :=
  decide (s.clientWidth < s.scrollWidth)

theorem scrollWidth_eq_max (s : CarouselState) :
    s.scrollWidth = max s.clientWidth s.contentWidth := by
  rw [scrollWidth, max_comm, max_def]

theorem scrollLeftMax_nonneg (s : CarouselState) : 0 ≤ s.scrollLeftMax := by
  rw [scrollLeftMax, scrollWidth_eq_max, sub_nonneg]
  exact le_max_left _ _

theorem jsSetScrollLeft_eq (s : CarouselState) (v : ℚ) :
    s.jsSetScrollLeft v = { s with scrollLeft := min (max v 0) s.scrollLeftMax } := by
  rw [jsSetScrollLeft]
  congr 1
  rw [max_comm, max_def, min_def]

theorem jsSetScrollLeft_inRange (s : CarouselState) (v : ℚ) :
    (s.jsSetScrollLeft v).InRange := by
  rw [jsSetScrollLeft_eq]
  exact ⟨le_min (le_max_right v 0) (scrollLeftMax_nonneg s), min_le_right _ _⟩

theorem getElementInView_itemRect (s : CarouselState) (i : ℕ) :
    getElementInView s.containerRect (s.itemRect i) = decide (itemFullyVisible s i) := by
  simp only [getElementInView, itemFullyVisible, itemRect, containerRect, Rect.right]
  by_cases h1 : s.containerLeft ≤ s.itemLeft i <;>
    by_cases h2 : s.itemLeft i + s.itemWidths.getD i 0 ≤ s.containerLeft + s.clientWidth <;>
      simp [h1, h2]

theorem getElementsInView_eq (s : CarouselState) :
    getElementsInView s = (visibleIndices s).map s.itemRect := by
  rw [getElementsInView, List.filter_map, visibleIndices]
  congr 1
  refine List.filter_congr fun i _ => ?_
  simp only [Function.comp_apply, getElementInView_itemRect]

theorem visibleWidth_eq (s : CarouselState) :
    ((getElementsInView s).map Rect.width).sum = visibleWidthSum s := by
  rw [getElementsInView_eq, List.map_map, visibleWidthSum]
  congr 1

theorem headD_getElementsInView (s : CarouselState) (h : 0 < visibleWidthSum s) :
    ((getElementsInView s).headD ⟨0, 0⟩).left = firstVisibleLeft s := by
  rw [getElementsInView_eq, firstVisibleLeft]
  cases hv : visibleIndices s with
  | nil =>
    exfalso
    rw [visibleWidthSum, hv] at h
    simp at h
  | cons i is => simp [itemRect]

theorem handleScroll_closedForm (s : CarouselState) (h : s.InRange) :
    handleScroll s =
      (isScrollableState s,
        if s.scrollLeftMax = 0 then JSNum.fin 0
        else JSNum.fin (roundTo2 ((⌊s.scrollLeft⌋ : ℚ) / s.scrollLeftMax))) := by
  have hM0 : s.scrollWidth - s.clientWidth = s.scrollLeftMax := rfl
  have hfloor : jsParseInt s.scrollLeft = ⌊s.scrollLeft⌋ := if_pos h.1
  by_cases hM : s.scrollLeftMax = 0
  · have hsl : s.scrollLeft = 0 := le_antisymm (h.2.trans_eq hM) h.1
    simp only [handleScroll, getWidths, isScrollableState, hM0, hM, if_pos rfl, hsl,
      jsParseInt, le_refl, if_pos, Int.floor_zero, Int.cast_zero, jsDiv, toFixed2, jsOrZero]
  · simp only [handleScroll, getWidths, isScrollableState, hM0, hfloor, jsDiv, if_neg hM,
      toFixed2, jsOrZero, if_neg hM]

theorem roundTo2_nonneg {q : ℚ} (h : 0 ≤ q) : 0 ≤ roundTo2 q := by
  rw [roundTo2]
  apply div_nonneg _ (by norm_num)
  have h2 : (0 : ℤ) ≤ ⌊q * 100 + 1 / 2⌋ := Int.floor_nonneg.2 (by linarith)
  exact_mod_cast h2

theorem roundTo2_le_one {q : ℚ} (h : q ≤ 1) : roundTo2 q ≤ 1 := by
  rw [roundTo2, div_le_one (by norm_num : (0 : ℚ) < 100)]
  have h1 : ⌊q * 100 + 1 / 2⌋ ≤ ⌊(201 : ℚ) / 2⌋ := Int.floor_le_floor (by linarith)
  have h2 : ⌊(201 : ℚ) / 2⌋ = 100 := by norm_num [Int.floor_eq_iff]
  rw [h2] at h1
  exact_mod_cast h1

theorem roundTo2_zero : roundTo2 0 = 0 := by
  rw [roundTo2]
  norm_num [Int.floor_eq_iff]

/-- C1 (counterexample): at the valid state with container left 0,
viewport width 300, three items of width 200 and scroll offset 100.5
(scrollable width 600), the percent passed to `onScroll` is not the
quotient scrollOffset / (scrollableWidth - viewportWidth) = 100.5 / 300:
the code truncates the offset to 100 and rounds 100 / 300 to 0.33. -/
theorem reportProgress_percent_not_exact_quotient :
    (⟨0, 300, [200, 200, 200], 201 / 2⟩ : CarouselState).InRange ∧
      (handleScroll ⟨0, 300, [200, 200, 200], 201 / 2⟩).2 ≠
        JSNum.fin ((201 / 2) / 300) := by
  constructor
  · norm_num [InRange, scrollLeftMax, scrollWidth, contentWidth]
  · norm_num [handleScroll, getWidths, jsParseInt, jsDiv, toFixed2, jsOrZero, roundTo2,
      scrollWidth, contentWidth, Int.floor_eq_iff]

/-- C1 (amended): for every carousel state whose scroll offset lies in
the DOM range, `handleScroll` invokes the two callbacks with,
respectively, whether scrollableWidth > viewportWidth, and a percent
equal to the scroll offset truncated to an integer, divided by
(scrollableWidth - viewportWidth), then rounded to two decimal places —
with 0 reported instead when that quotient is not a number (denominator
zero). -/
theorem reportProgress_rounded_percent (s : CarouselState) (h : s.InRange) :
    handleScroll s =
      (isScrollableState s,
        if s.scrollLeftMax = 0 then JSNum.fin 0
        else JSNum.fin (roundTo2 ((jsParseInt s.scrollLeft : ℚ) / s.scrollLeftMax))) := by
  rw [handleScroll_closedForm s h, jsParseInt, if_pos h.1]

/-- C1 (witness): at the state with viewport 300, three items of width
200 and offset 150, the callbacks receive `true` and 0.5. -/
theorem reportProgress_rounded_percent_witness :
    (⟨0, 300, [200, 200, 200], 150⟩ : CarouselState).InRange ∧
      handleScroll ⟨0, 300, [200, 200, 200], 150⟩ = (true, JSNum.fin (1 / 2)) := by
  have h : (⟨0, 300, [200, 200, 200], 150⟩ : CarouselState).InRange := by
    norm_num [InRange, scrollLeftMax, scrollWidth, contentWidth]
  refine ⟨h, ?_⟩
  rw [reportProgress_rounded_percent _ h]
  norm_num [isScrollableState, scrollLeftMax, scrollWidth, contentWidth, jsParseInt,
    roundTo2, Int.floor_eq_iff]

/-- C2 (counterexample): with viewport width 300 and three items of
width 150 (scrollable width 450, so the maximum scroll offset is 150),
advance() from offset 0 does not land on 300: the attempted 300 is
clamped by the DOM. -/
theorem advance_scenario_not_300 :
    (handleNext ⟨0, 300, [150, 150, 150], 0⟩).scrollLeft ≠ 300 := by
  norm_num [handleNext, getElementsInView, getElementInView, itemRect, itemLeft,
    containerRect, jsSetScrollLeft, scrollLeftMax, scrollWidth, contentWidth,
    Rect.right, List.range_succ]

/-- C2 (amended): in the scenario with viewport width 300 and three
items of width 150 each (total 450), the maximum scroll offset is 150;
advance() from offset 0 scrolls to 150 (the attempted full viewport of
300 is clamped), and retreat() from offset 150 returns to 0. -/
theorem advance_retreat_scenario :
    (⟨0, 300, [150, 150, 150], 0⟩ : CarouselState).scrollLeftMax = 150 ∧
      (handleNext ⟨0, 300, [150, 150, 150], 0⟩).scrollLeft = 150 ∧
      (handlePrev ⟨0, 300, [150, 150, 150], 150⟩).scrollLeft = 0 := by
  refine ⟨by norm_num [scrollLeftMax, scrollWidth, contentWidth], ?_, ?_⟩
  · norm_num [handleNext, getElementsInView, getElementInView, itemRect, itemLeft,
      containerRect, jsSetScrollLeft, scrollLeftMax, scrollWidth, contentWidth,
      Rect.right, List.range_succ]
  · norm_num [handlePrev, getElementsInView, getElementInView, itemRect, itemLeft,
      containerRect, jsSetScrollLeft, scrollLeftMax, scrollWidth, contentWidth,
      Rect.right, List.range_succ]

/-- C3: every one of advance(), retreat() and reset() leaves the scroll
offset inside [0, scrollableWidth - viewportWidth]; in particular
advance() with every item fully visible cannot push the offset past the
maximum, because every write to the offset is clamped. -/
theorem scroll_ops_preserve_scroll_range (s : CarouselState) (h : s.InRange) :
    (handleNext s).InRange ∧ (handlePrev s).InRange ∧ (handleReset s).InRange :=
  ⟨jsSetScrollLeft_inRange s _, jsSetScrollLeft_inRange s _, jsSetScrollLeft_inRange s _⟩

/-- C3 (witness): the three operations applied at the concrete scenario
state keep the offset in range. -/
theorem scroll_ops_preserve_scroll_range_witness :
    (⟨0, 300, [150, 150, 150], 0⟩ : CarouselState).InRange ∧
      ((handleNext ⟨0, 300, [150, 150, 150], 0⟩).InRange ∧
        (handlePrev ⟨0, 300, [150, 150, 150], 0⟩).InRange ∧
        (handleReset ⟨0, 300, [150, 150, 150], 0⟩).InRange) := by
  have h : (⟨0, 300, [150, 150, 150], 0⟩ : CarouselState).InRange := by
    norm_num [InRange, scrollLeftMax, scrollWidth, contentWidth]
  exact ⟨h, scroll_ops_preserve_scroll_range _ h⟩

/-- C4 (counterexample): at the state with viewport 300, three items of
width 150 and offset 150, the second and third items are fully visible,
the claimed decrease is (visible width sum 300) - (first visible left 0)
= 300, yet retreat() does not take the offset to 150 - 300 = -150: the
DOM clamps the write at 0. -/
theorem retreat_delta_counterexample :
    itemFullyVisible ⟨0, 300, [150, 150, 150], 150⟩ 1 ∧
      (handlePrev ⟨0, 300, [150, 150, 150], 150⟩).scrollLeft ≠
        (⟨0, 300, [150, 150, 150], 150⟩ : CarouselState).scrollLeft -
          (visibleWidthSum ⟨0, 300, [150, 150, 150], 150⟩ -
            firstVisibleLeft ⟨0, 300, [150, 150, 150], 150⟩) := by
  constructor
  · norm_num [itemFullyVisible, itemLeft]
  · norm_num [handlePrev, getElementsInView, getElementInView, itemRect, itemLeft,
      containerRect, jsSetScrollLeft, scrollLeftMax, scrollWidth, contentWidth,
      Rect.right, List.range_succ, visibleWidthSum, visibleIndices, firstVisibleLeft,
      itemFullyVisible]

/-- C4 (amended): for every carousel state, retreat() sets the scroll
offset to (offset - X) clamped into [0, scrollableWidth - viewportWidth],
where X is the summed width of the fully visible items minus the first
fully visible item's left offset when that sum is positive, and the
viewport width plus the container's own left offset otherwise; no other
field changes. -/
theorem retreat_clamped_delta (s : CarouselState) :
    handlePrev s =
      { s with scrollLeft := min (max (s.scrollLeft - retreatDelta s) 0) s.scrollLeftMax } := by
  unfold handlePrev
  rw [jsSetScrollLeft_eq, visibleWidth_eq, retreatDelta, containerRect]
  by_cases h : 0 < visibleWidthSum s
  · rw [if_pos h, if_pos h, headD_getElementsInView s h]
  · rw [if_neg h, if_neg h]

/-- C5 (counterexample): at the state with viewport 300 and a single
item of width 150 at offset 0, the item is fully visible with summed
width 150 > 0, yet advance() does not increase the offset by 150: all
content fits the viewport, so the write is clamped back to 0. -/
theorem advance_delta_counterexample :
    0 < visibleWidthSum ⟨0, 300, [150], 0⟩ ∧
      (handleNext ⟨0, 300, [150], 0⟩).scrollLeft ≠
        (⟨0, 300, [150], 0⟩ : CarouselState).scrollLeft +
          visibleWidthSum ⟨0, 300, [150], 0⟩ := by
  constructor
  · norm_num [visibleWidthSum, visibleIndices, itemFullyVisible, itemLeft,
      List.range_succ]
  · norm_num [handleNext, getElementsInView, getElementInView, itemRect, itemLeft,
      containerRect, jsSetScrollLeft, scrollLeftMax, scrollWidth, contentWidth,
      Rect.right, List.range_succ, visibleWidthSum, visibleIndices, itemFullyVisible]

/-- C5 (amended): for every carousel state, advance() sets the scroll
offset to (offset + X) clamped into [0, scrollableWidth - viewportWidth],
where X is the summed width of the fully visible items when that sum is
positive and the viewport width otherwise; no other field changes, so
mutating the offset is the only effect. -/
theorem advance_clamped_delta (s : CarouselState) :
    handleNext s =
      { s with scrollLeft := min (max (s.scrollLeft + advanceDelta s) 0) s.scrollLeftMax } := by
  unfold handleNext
  rw [jsSetScrollLeft_eq, visibleWidth_eq, advanceDelta, containerRect]

/-- C6: whenever the scrollable width is at most the viewport width (the
DOM then pins the offset to 0), handleScroll reports `false` to the
scrollability callback and percent 0 to the scroll callback. -/
theorem reportProgress_not_scrollable (s : CarouselState) (h : s.InRange)
    (hw : s.scrollWidth ≤ s.clientWidth) :
    handleScroll s = (false, JSNum.fin 0) := by
  have hM : s.scrollLeftMax = 0 :=
    le_antisymm (by rw [scrollLeftMax]; linarith) (scrollLeftMax_nonneg s)
  have hb : isScrollableState s = false := by
    rw [isScrollableState]
    exact decide_eq_false (not_lt.2 hw)
  rw [handleScroll_closedForm s h, if_pos hM, hb]

/-- C6 (witness): a viewport of width 300 holding a single item of width
100 reports not-scrollable and percent 0. -/
theorem reportProgress_not_scrollable_witness :
    (⟨0, 300, [100], 0⟩ : CarouselState).InRange ∧
      (⟨0, 300, [100], 0⟩ : CarouselState).scrollWidth ≤ 300 ∧
      handleScroll ⟨0, 300, [100], 0⟩ = (false, JSNum.fin 0) := by
  have h : (⟨0, 300, [100], 0⟩ : CarouselState).InRange := by
    norm_num [InRange, scrollLeftMax, scrollWidth, contentWidth]
  have hw : (⟨0, 300, [100], 0⟩ : CarouselState).scrollWidth ≤ 300 := by
    norm_num [scrollWidth, contentWidth]
  exact ⟨h, hw, reportProgress_not_scrollable _ h hw⟩

/-- C7: whenever the scrollable width exceeds the viewport width and the
offset lies in the DOM range, the percent handed to `onScroll` is a
finite number in the closed interval [0, 1]. -/
theorem reportProgress_percent_in_unit_interval (s : CarouselState) (h : s.InRange)
    (hw : s.clientWidth < s.scrollWidth) :
    ∃ q : ℚ, (handleScroll s).2 = JSNum.fin q ∧ 0 ≤ q ∧ q ≤ 1 := by
  have hM : 0 < s.scrollLeftMax := by rw [scrollLeftMax]; linarith
  refine ⟨roundTo2 ((⌊s.scrollLeft⌋ : ℚ) / s.scrollLeftMax), ?_, ?_, ?_⟩
  · rw [handleScroll_closedForm s h]
    simp [hM.ne']
  · refine roundTo2_nonneg (div_nonneg ?_ hM.le)
    exact_mod_cast Int.floor_nonneg.2 h.1
  · exact roundTo2_le_one ((div_le_one hM).2 ((Int.floor_le _).trans h.2))

/-- C7 (witness): with viewport 300, two items of width 250 and offset
200 (the maximum), the reported percent exists and lies in [0, 1]. -/
theorem reportProgress_percent_in_unit_interval_witness :
    (⟨0, 300, [250, 250], 200⟩ : CarouselState).InRange ∧
      (300 : ℚ) < (⟨0, 300, [250, 250], 200⟩ : CarouselState).scrollWidth ∧
      ∃ q : ℚ, (handleScroll ⟨0, 300, [250, 250], 200⟩).2 = JSNum.fin q ∧
        0 ≤ q ∧ q ≤ 1 := by
  have h : (⟨0, 300, [250, 250], 200⟩ : CarouselState).InRange := by
    norm_num [InRange, scrollLeftMax, scrollWidth, contentWidth]
  have hw : (300 : ℚ) < (⟨0, 300, [250, 250], 200⟩ : CarouselState).scrollWidth := by
    norm_num [scrollWidth, contentWidth]
  exact ⟨h, hw, reportProgress_percent_in_unit_interval _ h hw⟩

/-- C8: reset() writes offset 0, and handleScroll on the reset state
always passes percent 0 to the scroll callback, whatever the widths. -/
theorem reset_then_reportProgress_zero (s : CarouselState) :
    (handleScroll (handleReset s)).2 = JSNum.fin 0 := by
  have hr : (handleReset s).InRange := jsSetScrollLeft_inRange s 0
  have h0 : (handleReset s).scrollLeft = 0 := by
    rw [handleReset, jsSetScrollLeft_eq]
    show min (max 0 0) s.scrollLeftMax = 0
    rw [max_self]
    exact min_eq_left (scrollLeftMax_nonneg s)
  rw [handleScroll_closedForm _ hr, h0]
  by_cases hM : (handleReset s).scrollLeftMax = 0
  · simp [hM]
  · simp [hM, roundTo2_zero]

/-- C9 (counterexample): handleScroll invokes `onChangeIsScrollable` on
every scrollend event, not only when scrollability changed: two
scrollend events on the same scrollable state produce two invocations
with the same value `true`, so the sequence of invocation arguments is
not change-only (consecutive values repeat). -/
theorem onChangeIsScrollable_fires_unchanged :
    scrollendEmissions [⟨0, 300, [200, 200], 0⟩, ⟨0, 300, [200, 200], 0⟩] =
        [true, true] ∧
      ¬ List.Chain' (fun a b : Bool => a ≠ b) [true, true] := by
  constructor
  · norm_num [scrollendEmissions, handleScroll, getWidths, scrollWidth, contentWidth]
  · simp [List.chain'_cons]

/-- C9 (amended): across any sequence of scrollend events, the
`onChangeIsScrollable` callback is invoked once per event — as many
times as there are events — each time with the current scrollability
(scrollableWidth > viewportWidth), whether or not it changed. -/
theorem onChangeIsScrollable_every_scrollend (states : List CarouselState) :
    (scrollendEmissions states).length = states.length ∧
      scrollendEmissions states = states.map isScrollableState := by
  constructor
  · rw [scrollendEmissions, List.length_map]
  · rfl

/-- C10: when the state is in the DOM range and the scrollable range is
nonempty, the percent passed to `onScroll` is obtained from the scroll
offset truncated to an integer (the `parseInt(·, 10)` in getWidths),
divided by (scrollableWidth - viewportWidth), and rounded to exactly two
decimal places; consequently a ratio that rounds to 0.00 is reported as
exactly 0. -/
theorem reportProgress_truncates_and_rounds (s : CarouselState) (h : s.InRange)
    (hM : 0 < s.scrollLeftMax) :
    (handleScroll s).2 = JSNum.fin (roundTo2 ((⌊s.scrollLeft⌋ : ℚ) / s.scrollLeftMax)) ∧
      (roundTo2 ((⌊s.scrollLeft⌋ : ℚ) / s.scrollLeftMax) = 0 →
        (handleScroll s).2 = JSNum.fin 0) := by
  have h1 : (handleScroll s).2 =
      JSNum.fin (roundTo2 ((⌊s.scrollLeft⌋ : ℚ) / s.scrollLeftMax)) := by
    rw [handleScroll_closedForm s h]
    simp [hM.ne']
  exact ⟨h1, fun hz => by rw [h1, hz]⟩

/-- C10 (witness): with viewport 300, three items of width 200 and
offset 1, the true ratio 1/300 rounds to 0.00 and the reported percent
is exactly 0. -/
theorem reportProgress_truncates_and_rounds_witness :
    (⟨0, 300, [200, 200, 200], 1⟩ : CarouselState).InRange ∧
      0 < (⟨0, 300, [200, 200, 200], 1⟩ : CarouselState).scrollLeftMax ∧
      (handleScroll ⟨0, 300, [200, 200, 200], 1⟩).2 = JSNum.fin 0 := by
  have h : (⟨0, 300, [200, 200, 200], 1⟩ : CarouselState).InRange := by
    norm_num [InRange, scrollLeftMax, scrollWidth, contentWidth]
  have hM : 0 < (⟨0, 300, [200, 200, 200], 1⟩ : CarouselState).scrollLeftMax := by
    norm_num [scrollLeftMax, scrollWidth, contentWidth]
  have hc := reportProgress_truncates_and_rounds _ h hM
  refine ⟨h, hM, hc.2 ?_⟩
  norm_num [roundTo2, scrollLeftMax, scrollWidth, contentWidth, Int.floor_eq_iff]
